import Mathlib

/-!
# Verification of the Matrix_cpp text codec and offset-addressing layer

Shallow embedding of `src/src/Matrix/Matrix2D.hpp` and
`src/src/Matrix/Matrix4D.hpp`: the line-oriented text format (header
recognition, streaming 3D-slice accumulation, the driving constructor loop),
the per-axis offset tables, and the checked accessors.  The base class
`Matrix.hpp` is not part of the sources; the few base-class operations the
claims need (`compute_dim_product`, the generic checked `get`, the base
constructor) are modelled from the spec and marked as such.

Conventions of the embedding:
  * a text stream is the list of its lines (each a `List Char`) plus a flag
    telling whether the content ends with a newline; this captures exactly the
    `std::getline` distinctions the code depends on (`eof()` after reading an
    unterminated final line, a failing `getline` at end of stream);
  * element values are `Int` (the code is a template; all concrete inputs in
    the claims are integer matrices);
  * `std::vector` indexing past the allocated size (C++ undefined behaviour)
    is modelled by `Option`: `none` marks an out-of-bounds access.
-/

namespace MatrixCpp

/-- Error tag per throw site of the sources (all are `std::runtime_error` /
`std::out_of_range` carrying a message in C++). -/
inductive Err where
  | emptyLine
  | readError
  | variableDims
  | firstLineNotHeader
  | incompatibleTypes
  | variableCols
  | indexOutOfRange

/-- Projection of an `Except` result to `Option`, used to state theorems about
the successful component of a parse. -/
def okPart {α : Type} : Except Err α → Option α
  | Except.ok a => some a
  | Except.error _ => none

/-- A text stream: the lines obtained by splitting the file content at newline
characters, plus whether the content ends with a newline.  `⟨[], false⟩` is the
0-byte stream and `⟨[[]], true⟩` is a single line terminator. -/
structure TextStream where
  lines : List (List Char)
  endNl : Bool

/-- Model of `std::getline` on an input stream: fails iff no line remains;
otherwise returns the line, whether end-of-file was reached while reading it
(that is, the line was the last one and not newline-terminated), and the
remaining stream. -/
def getline? (s : TextStream) : Option (List Char × Bool × TextStream) :=
  match s.lines with
  | [] => none
  | l :: rest => some (l, rest.isEmpty && !s.endNl, ⟨rest, s.endNl⟩)

/-- Character of a string at an index, with `std::string::operator[]`'s
guarantee that the index equal to the size reads the null character.  The
sources only index positions `0..2` after guards that keep the access at most
one past the end, so the total `getD` model is faithful. -/
def chAt (cs : List Char) (i : Nat) : Char := cs.getD i (Char.ofNat 0)

/-- Embeds `Matrix4D::is_header_3d` (Matrix4D.hpp:669-676): first two
characters are commas and `find(',', 2)` fails.  No validation of what follows
the commas. -/
def is_header_3d (cs : List Char) : Bool :=
  chAt cs 0 == ',' && (chAt cs 1 == ',' && !((cs.drop 2).contains ','))

/-- Embeds `Matrix4D::is_header_4d` (Matrix4D.hpp:678-686): first three
characters are commas and `find(',', 3)` fails. -/
def is_header_4d (cs : List Char) : Bool :=
  chAt cs 0 == ',' && (chAt cs 1 == ',' && (chAt cs 2 == ',' && !((cs.drop 3).contains ',')))

/-- Whitespace as skipped by `operator>>` inside a line. -/
def isWs (c : Char) : Bool := c == ' ' || c == '\t'

/-- Helper for `splitWs`: accumulates the current word. -/
def splitWsAux : List Char → List Char → List (List Char)
  | [], acc => if acc.isEmpty then [] else [acc.reverse]
  | c :: cs, acc =>
    if isWs c then
      if acc.isEmpty then splitWsAux cs [] else acc.reverse :: splitWsAux cs []
    else splitWsAux cs (c :: acc)

/-- Splits a line into whitespace-separated tokens. -/
def splitWs (l : List Char) : List (List Char) := splitWsAux l []

/-- Value of an all-digit token. -/
def digitsVal (cs : List Char) : Option Nat :=
  if cs.isEmpty then none
  else if cs.all Char.isDigit then
    some (cs.foldl (fun n c => 10 * n + (c.toNat - 48)) 0)
  else none

/-- Parse of one token as the element type by `operator>>` for integers:
an optional sign followed by digits. -/
def parseIntTok : List Char → Option Int
  | '-' :: ds => (digitsVal ds).map (fun n => -(n : Int))
  | '+' :: ds => (digitsVal ds).map (fun n => (n : Int))
  | ds => (digitsVal ds).map (fun n => (n : Int))

/-- Tokenization of a data row in `Matrix4D::get_3d_slice`
(Matrix4D.hpp:750-763): values are extracted while `>>` succeeds, and a
remaining unparsable token (`fail()` without `eof()`) is a fatal format error,
reported here as `none`. -/
def parseRow (l : List Char) : Option (List Int) := (splitWs l).mapM parseIntTok

/-- Tokenization of a data row in the `Matrix2D` text constructor
(Matrix2D.hpp:167-172): values are extracted while `>>` succeeds and the rest
of the line is silently ignored (the 2D constructor has no incompatible-type
check). -/
def tokens2D (l : List Char) : List Int :=
  (((splitWs l).map parseIntTok).takeWhile Option.isSome).map (fun o => o.getD 0)

/-- Modelled from the spec: the base class `Matrix<T>::compute_dim_product`
(Matrix.hpp is not under src/).  Per spec §4.2 the 2D specialisation stores
row-major with the first generic coordinate (the column) as the fastest axis,
so the base stride of axis `i` is the product of the sizes of the axes before
`i`: `dim_prod[0] = 1`, `dim_prod[i] = dim[0] * ... * dim[i-1]`. -/
def compute_dim_product (dim : List Nat) : List Nat :=
  (List.range dim.length).map (fun i => (dim.take i).prod)

/-- State of a `Matrix4D<int>`: the `_dim` vector, the flat `_data` buffer,
`_dim_prod`, and the four per-axis offset tables. -/
structure Matrix4 where
  dim : List Nat
  data : List Int
  dim_prod : List Nat
  dim1_offsets : List Nat
  dim2_offsets : List Nat
  dim3_offsets : List Nat
  dim4_offsets : List Nat

/-- The state the text-file constructor builds before reading anything and
returns as-is for an empty file (Matrix4D.hpp:451-455, 469-483): all-zero
`_dim`, empty `_data`, `_dim_prod` four zeros, empty offset tables. -/
def nullMatrix4 : Matrix4 := ⟨[0, 0, 0, 0], [], [0, 0, 0, 0], [], [], [], []⟩

/-- Parser-local state of `Matrix4D::get_3d_slice` (Matrix4D.hpp:692-702):
accumulated data, the `dim = {d0, d1, d2}` vector, and the counters
`n_line`, `n_line_data`, `row_len`, `col_len`, `col_len_cur`. -/
structure SliceSt where
  data : List Int
  d0 : Nat
  d1 : Nat
  d2 : Nat
  nLine : Nat
  nLineData : Nat
  rowLen : Nat
  colLen : Nat
  colLenCur : Nat

/-- Initial slice state (`dim = {0,0,0}`, all counters zero). -/
def initSliceSt : SliceSt := ⟨[], 0, 0, 0, 0, 0, 0, 0, 0⟩

/-- Embeds the reading loop of `Matrix4D::get_3d_slice`
(Matrix4D.hpp:688-793), including the post-loop check
`if (col_len_cur != dim[1])` which runs both when another 4D header was found
and when the stream is exhausted.  Returns the `found_4d_header` flag, the
remaining stream, and the final slice state. -/
def sliceLoop : List (List Char) → Bool → SliceSt → Except Err (Bool × TextStream × SliceSt)
  | [], endNl, st =>
    if st.colLenCur ≠ st.d1 then Except.error Err.variableDims
    else Except.ok (false, ⟨[], endNl⟩, st)
  | l :: rest, endNl, st =>
    if l.isEmpty then Except.error Err.emptyLine
    else if is_header_4d l then
      if st.colLenCur ≠ st.d1 then Except.error Err.variableDims
      else Except.ok (true, ⟨rest, endNl⟩, st)
    else if is_header_3d l then
      if st.d2 = 1 then
        sliceLoop rest endNl
          ⟨st.data, st.d0, st.d1, st.d2 + 1, st.nLine + 1, st.nLineData,
            st.rowLen, st.colLenCur, 0⟩
      else if st.colLenCur ≠ st.colLen then Except.error Err.variableDims
      else
        sliceLoop rest endNl
          ⟨st.data, st.d0, st.d1, st.d2 + 1, st.nLine + 1, st.nLineData,
            st.rowLen, st.colLen, 0⟩
    else if st.nLine = 0 then Except.error Err.firstLineNotHeader
    else
      match parseRow l with
      | none => Except.error Err.incompatibleTypes
      | some vals =>
        if st.nLineData = 0 then
          sliceLoop rest endNl
            ⟨st.data ++ vals, vals.length, st.colLenCur + 1, st.d2, st.nLine + 1,
              st.nLineData + 1, vals.length, st.colLen, st.colLenCur + 1⟩
        else if vals.length ≠ st.rowLen then Except.error Err.variableDims
        else
          sliceLoop rest endNl
            ⟨st.data ++ vals, vals.length, st.colLenCur + 1, st.d2, st.nLine + 1,
              st.nLineData + 1, st.rowLen, st.colLen, st.colLenCur + 1⟩

/-- Public face of `Matrix4D::get_3d_slice`: the `found_4d_header` flag, the
data read and the 3-element dimension vector. -/
def get_3d_slice (s : TextStream) : Except Err (Bool × List Int × List Nat) :=
  match sliceLoop s.lines s.endNl initSliceSt with
  | Except.error e => Except.error e
  | Except.ok (found, _, st) => Except.ok (found, st.data, [st.d0, st.d1, st.d2])

/-- Final phase of the text-file constructor (Matrix4D.hpp:553-563): store the
dimension vector, recompute `_dim_prod`, allocate the offset tables with the
lengths the constructor uses (`_dim1_offsets` of length `_dim[1]`,
`_dim2_offsets` of length `_dim[0]`, `_dim3_offsets` of length `_dim[2]`,
`_dim4_offsets` of length `_dim[3]`) and fill them as the
`compute_dimK_offsets` routines do (Matrix4D.hpp:795-817); with these lengths
every write is in bounds, so this phase is total. -/
def finish4 (acc : List Int) (d0 d1 d2 d3 : Nat) : Matrix4 :=
  let dim := [d0, d1, d2, d3]
  let dp := compute_dim_product dim
  ⟨dim, acc, dp,
    (List.range d1).map (fun i => i * dp.getD 1 0),
    (List.range d0).map (fun i => i * dp.getD 0 0),
    (List.range d2).map (fun i => i * dp.getD 2 0),
    (List.range d3).map (fun i => i * dp.getD 3 0)⟩

/-- Embeds the slice-driving do-while loop of the text-file constructor
(Matrix4D.hpp:492-551): repeatedly extract a 3D slice, append its data, adopt
its dimensions on the first slice and require equality afterwards, and count
slices in `_dim[3]`.  The fuel argument only bounds the recursion; one more
unit than the number of remaining lines can never be exhausted because each
iteration that continues consumed at least the 4D-header line. -/
def sliceDrive : Nat → TextStream → List Int → Nat × Nat × Nat → Nat → Except Err Matrix4
  | 0, _, _, _, _ => Except.error Err.readError
  | fuel + 1, s, acc, dims, d3 =>
    match sliceLoop s.lines s.endNl initSliceSt with
    | Except.error e => Except.error e
    | Except.ok (found, s2, st) =>
      let acc2 := acc ++ st.data
      if d3 = 0 then
        if found then sliceDrive fuel s2 acc2 (st.d0, st.d1, st.d2) 1
        else Except.ok (finish4 acc2 st.d0 st.d1 st.d2 1)
      else if (st.d0, st.d1, st.d2) ≠ dims then Except.error Err.variableDims
      else if found then sliceDrive fuel s2 acc2 dims (d3 + 1)
      else Except.ok (finish4 acc2 dims.1 dims.2.1 dims.2.2 (d3 + 1))

/-- Embeds the `Matrix4D` text-file constructor (Matrix4D.hpp:449-564).
An empty stream (no line at all, or a single empty line with nothing after
it) yields the null matrix; an empty first line with more content is an
error; a first line that is a 4D header starts the slice-driving loop; any
other first line is an error only when the stream was not exhausted while
reading it — otherwise the do-while loop is left at once and the constructor
returns with `_dim` still `{0,0,0,0}`. -/
def parse4D (s : TextStream) : Except Err Matrix4 :=
  match getline? s with
  | none => Except.ok nullMatrix4
  | some (l, eofR, s2) =>
    if l.isEmpty then
      if s2.lines.isEmpty then Except.ok nullMatrix4
      else Except.error Err.emptyLine
    else if is_header_4d l then
      sliceDrive (s2.lines.length + 1) s2 [] (0, 0, 0) 0
    else if !eofR then Except.error Err.readError
    else Except.ok (finish4 [] 0 0 0 0)

/-- One `compute_dimK_offsets` run (Matrix4D.hpp:795-817) against a
default-initialised `std::vector<size_t>` of size `alloc`: entries
`0..bound-1` are set to `i * stride`; a write past `alloc` is a heap overflow
(C++ undefined behaviour), modelled as `none`. -/
def writeOffsets (alloc bound stride : Nat) : Option (List Nat) :=
  if bound ≤ alloc then
    some ((List.range bound).map (fun i => i * stride) ++ List.replicate (alloc - bound) 0)
  else none

/-- Embeds the explicit-dimension constructor
`Matrix4D(dim1, dim2, dim3, dim4, value)` (Matrix4D.hpp:418-429).  The base
part (`Matrix<T>({dim1,dim2,dim3,dim4}, value)`) is modelled from the spec:
`_dim` is the given vector, `_data` has `dim1*dim2*dim3*dim4` copies of the
fill value, `_dim_prod` is recomputed.  The offset tables are allocated with
sizes `dim1, dim2, dim3, dim4` in that order and then filled by the
`compute_dimK_offsets` routines, whose write bounds are `_dim[1]`, `_dim[0]`,
`_dim[2]`, `_dim[3]`. -/
def matrix4D_explicit (d1 d2 d3 d4 : Nat) (v : Int) : Option Matrix4 :=
  let dim := [d1, d2, d3, d4]
  let data := List.replicate (d1 * d2 * d3 * d4) v
  let dp := compute_dim_product dim
  match writeOffsets d1 (dim.getD 1 0) (dp.getD 1 0),
      writeOffsets d2 (dim.getD 0 0) (dp.getD 0 0),
      writeOffsets d3 (dim.getD 2 0) (dp.getD 2 0),
      writeOffsets d4 (dim.getD 3 0) (dp.getD 3 0) with
  | some t1, some t2, some t3, some t4 => some ⟨dim, data, dp, t1, t2, t3, t4⟩
  | _, _, _, _ => none

/-- Embeds the unchecked element access
`(*this)(a, b, c, d) = _data[_dim1_offsets[a] + _dim2_offsets[b] +
_dim3_offsets[c] + _dim4_offsets[d]]` (Matrix4D.hpp:661-667, 819-837); any
out-of-bounds vector read (C++ undefined behaviour) is `none`. -/
def access4 (m : Matrix4) (a b c d : Nat) : Option Int := do
  let o1 ← m.dim1_offsets.get? a
  let o2 ← m.dim2_offsets.get? b
  let o3 ← m.dim3_offsets.get? c
  let o4 ← m.dim4_offsets.get? d
  m.data.get? (o1 + o2 + o3 + o4)

/-- One line of `Matrix4D::print` output, with the numeric formatting
(width, precision, separator) abstracted away: a `,,,k` header, a `,,k`
header, or a row of values. -/
inductive PrintLine where
  | h4 (k : Nat)
  | h3 (k : Nat)
  | row (vals : List Int)

/-- Embeds `Matrix4D::print` (Matrix4D.hpp:606-632): nothing is emitted when
any dimension is zero; otherwise for each `dim4 < _dim[3]` a `,,,dim4` header,
for each `dim3 < _dim[2]` a `,,dim3` header, then `_dim[0]` rows of `_dim[1]`
values each, the value at row `r`, column `t` being `(*this)(r, t, dim3,
dim4)`.  `none` marks an out-of-bounds access inside the loop. -/
def print4D (m : Matrix4) : Option (List PrintLine) :=
  if m.dim.getD 0 0 = 0 ∨ m.dim.getD 1 0 = 0 ∨ m.dim.getD 2 0 = 0 ∨ m.dim.getD 3 0 = 0 then
    some []
  else
    ((List.range (m.dim.getD 3 0)).mapM (fun s =>
      ((List.range (m.dim.getD 2 0)).mapM (fun blk =>
        ((List.range (m.dim.getD 0 0)).mapM (fun r =>
          ((List.range (m.dim.getD 1 0)).mapM (fun t =>
            access4 m r t blk s)).map PrintLine.row)).map
          (fun rows => PrintLine.h3 blk :: rows))).map
        (fun blocks => PrintLine.h4 s :: blocks.flatten))).map List.flatten

/-- Modelled from the spec: the base class checked `get(coords)` (Matrix.hpp
is not under src/): an IndexOutOfRange error iff some coordinate is not below
its dimension, otherwise the element at flat offset
`Σ coords[i] * dim_prod[i]`. -/
def baseGet (dim dimProd : List Nat) (data : List Int) (coords : List Nat) : Except Err Int :=
  if (coords.zip dim).all (fun p => decide (p.1 < p.2)) then
    Except.ok (data.getD (((coords.zip dimProd).map (fun p => p.1 * p.2)).sum) 0)
  else Except.error Err.indexOutOfRange

/-- Embeds `Matrix4D::get(dim1, dim2, dim3, dim4)` (Matrix4D.hpp:590-596),
which forwards to the base checked `get({dim1, dim2, dim3, dim4})`. -/
def get4D (m : Matrix4) (a b c d : Nat) : Except Err Int :=
  baseGet m.dim m.dim_prod m.data [a, b, c, d]

/-- State of a `Matrix2D<int>`: `_dim`, `_data`, `_dim_prod`. -/
structure Matrix2 where
  dim : List Nat
  data : List Int
  dim_prod : List Nat

/-- Embeds `Matrix2D::set(row, col, value)` (Matrix2D.hpp:209-215): the body
only calls the base checked `get({row, col})` — rethrowing its out-of-range
error — and never stores `value`, so on success the state is returned
unchanged. -/
def set2D (m : Matrix2) (row col : Nat) (v : Int) : Except Err Matrix2 :=
  match baseGet m.dim m.dim_prod m.data [row, col] with
  | Except.ok _ => Except.ok m
  | Except.error e => Except.error e

/-- Loop state of the `Matrix2D` text constructor (Matrix2D.hpp:148-191):
the `i` counter, `row_len`, the `_dim[1]` line count and the data read. -/
structure St2 where
  i : Nat
  rowLen : Nat
  count : Nat
  data : List Int

/-- Initial `Matrix2D` constructor loop state. -/
def init2St : St2 := ⟨0, 0, 0, []⟩

/-- Embeds the reading loop of the `Matrix2D` text constructor
(Matrix2D.hpp:150-191): on each successfully read line, first `if
(file.eof()) break` — so a final line not terminated by a newline is read but
discarded — then the empty-line check, tokenization, the constant-column
check, and the accumulation of data and the `_dim[1]` counter. -/
def loop2 : List (List Char) → Bool → St2 → Except Err St2
  | [], _, st => Except.ok st
  | l :: rest, endNl, st =>
    if rest.isEmpty && !endNl then Except.ok st
    else if l.isEmpty then Except.error Err.emptyLine
    else if st.i = 0 then
      loop2 rest endNl ⟨st.i + 1, (tokens2D l).length, st.count + 1, st.data ++ tokens2D l⟩
    else if (tokens2D l).length ≠ st.rowLen then Except.error Err.variableCols
    else loop2 rest endNl ⟨st.i + 1, st.rowLen, st.count + 1, st.data ++ tokens2D l⟩

/-- Embeds the `Matrix2D` text-file constructor (Matrix2D.hpp:126-196):
runs the reading loop, then stores `_dim = {row_len, line count}` and the
accumulated data. -/
def parse2D (s : TextStream) : Except Err (List Nat × List Int) :=
  match loop2 s.lines s.endNl init2St with
  | Except.error e => Except.error e
  | Except.ok st => Except.ok ([st.rowLen, st.count], st.data)

/-- Formalises the claim wording for a 3D header (used only to exhibit the
divergence from the code): exactly two leading commas followed by a non-comma
integer token, with no comma after. -/
def claimIntToken : List Char → Bool
  | '-' :: ds => !ds.isEmpty && ds.all Char.isDigit
  | ds => !ds.isEmpty && ds.all Char.isDigit

/-- Claim-side 3D-header recognizer: two commas then an integer token. -/
def claim_header_3d : List Char → Bool
  | ',' :: ',' :: rest => claimIntToken rest && !rest.contains ','
  | _ => false

/-- Claim-side 4D-header recognizer: three commas then an integer token. -/
def claim_header_4d : List Char → Bool
  | ',' :: ',' :: ',' :: rest => claimIntToken rest && !rest.contains ','
  | _ => false

/-- The seven-line example of claim C3 (also the first half of the example in
the Matrix4D.hpp documentation comment), newline-terminated. -/
def exDoc : TextStream :=
  ⟨[",,,0".toList, ",,0".toList, "1 2 3".toList, "4 5 6".toList,
    ",,1".toList, "7 8 9".toList, "10 11 12".toList], true⟩

/-- A minimal non-square tensor text: one 4D slice, one block, one row of two
values. -/
def exC1 : TextStream := ⟨[",,,0".toList, ",,0".toList, "1 2".toList], true⟩

/-! ## Helper lemmas -/

/-- Characterisation of `is_header_3d`: the line starts with two commas and no
comma occurs from position 2 on; nothing else is checked. -/
lemma is_header_3d_iff (cs : List Char) :
    is_header_3d cs = true ↔ ∃ rest, cs = ',' :: ',' :: rest ∧ rest.contains ',' = false := by
  rcases cs with _ | ⟨a, _ | ⟨b, rest⟩⟩
  · constructor
    · intro h; exact absurd h (by decide)
    · rintro ⟨rest, h, -⟩; exact absurd h (by simp)
  · constructor
    · intro h
      rw [show is_header_3d [a] = (a == ',' && false) from rfl] at h
      simp at h
    · rintro ⟨rest, h, -⟩; exact absurd h (by simp)
  · rw [show is_header_3d (a :: b :: rest) =
        ((a == ',') && ((b == ',') && !(rest.contains ','))) from rfl]
    constructor
    · intro h
      simp only [Bool.and_eq_true, beq_iff_eq, Bool.not_eq_true'] at h
      obtain ⟨rfl, rfl, hc⟩ := h
      exact ⟨rest, rfl, hc⟩
    · rintro ⟨rest', h, hc⟩
      injection h with h1 h2
      injection h2 with h3 h4
      subst h1; subst h3; subst h4
      rw [hc]; decide

/-- Characterisation of `is_header_4d`: three leading commas and no comma from
position 3 on. -/
lemma is_header_4d_iff (cs : List Char) :
    is_header_4d cs = true ↔
      ∃ rest, cs = ',' :: ',' :: ',' :: rest ∧ rest.contains ',' = false := by
  rcases cs with _ | ⟨a, _ | ⟨b, _ | ⟨c, rest⟩⟩⟩
  · constructor
    · intro h; exact absurd h (by decide)
    · rintro ⟨rest, h, -⟩; exact absurd h (by simp)
  · constructor
    · intro h
      rw [show is_header_4d [a] = (a == ',' && false) from rfl] at h
      simp at h
    · rintro ⟨rest, h, -⟩; exact absurd h (by simp)
  · constructor
    · intro h
      rw [show is_header_4d [a, b] = ((a == ',') && ((b == ',') && false)) from rfl] at h
      simp at h
    · rintro ⟨rest, h, -⟩; exact absurd h (by simp)
  · rw [show is_header_4d (a :: b :: c :: rest) =
        ((a == ',') && ((b == ',') && ((c == ',') && !(rest.contains ',')))) from rfl]
    constructor
    · intro h
      simp only [Bool.and_eq_true, beq_iff_eq, Bool.not_eq_true'] at h
      obtain ⟨rfl, rfl, rfl, hc⟩ := h
      exact ⟨rest, rfl, hc⟩
    · rintro ⟨rest', h, hc⟩
      injection h with h1 h2
      injection h2 with h3 h4
      injection h4 with h5 h6
      subst h1; subst h3; subst h5; subst h6
      rw [hc]; decide

/-- The `Matrix2D` constructor loop behaves on a stream whose last line is
unterminated exactly as on the stream with that line removed: the `if
(file.eof()) break` fires before the line is processed. -/
lemma loop2_dropLast (ls : List (List Char)) :
    ∀ st : St2, loop2 ls false st = loop2 ls.dropLast true st := by
  induction ls with
  | nil => intro st; rfl
  | cons l rest ih =>
    intro st
    cases rest with
    | nil => rfl
    | cons r rs =>
      have hdrop : (l :: r :: rs).dropLast = l :: (r :: rs).dropLast := rfl
      rw [hdrop]
      simp only [loop2]
      have hg1 : ¬(((r :: rs).isEmpty && !false) = true) := by simp
      have hg2 : ¬((((r :: rs).dropLast).isEmpty && !true) = true) := by simp
      rw [if_neg hg1, if_neg hg2]
      by_cases hl : l.isEmpty = true
      · rw [if_pos hl, if_pos hl]
      · rw [if_neg hl, if_neg hl]
        by_cases hi : st.i = 0
        · rw [if_pos hi, if_pos hi]; exact ih _
        · rw [if_neg hi, if_neg hi]
          by_cases hv : (tokens2D l).length ≠ st.rowLen
          · rw [if_pos hv, if_pos hv]
          · rw [if_neg hv, if_neg hv]; exact ih _

/-- On a fully newline-terminated stream, every line that the `Matrix2D`
constructor loop survives increments the `_dim[1]` counter: a successful run
counts all lines. -/
lemma loop2_count (ls : List (List Char)) :
    ∀ st st' : St2, loop2 ls true st = Except.ok st' → st'.count = st.count + ls.length := by
  induction ls with
  | nil =>
    intro st st' h
    simp only [loop2] at h
    cases h
    simp
  | cons l rest ih =>
    intro st st' h
    simp only [loop2] at h
    rw [Bool.not_true, Bool.and_false] at h
    rw [if_neg Bool.false_ne_true] at h
    by_cases hl : l.isEmpty = true
    · rw [if_pos hl] at h; cases h
    · rw [if_neg hl] at h
      by_cases hi : st.i = 0
      · rw [if_pos hi] at h
        have hrec : st'.count = (st.count + 1) + rest.length := ih _ _ h
        simp only [List.length_cons]
        omega
      · rw [if_neg hi] at h
        by_cases hv : (tokens2D l).length ≠ st.rowLen
        · rw [if_pos hv] at h; cases h
        · rw [if_neg hv] at h
          have hrec : st'.count = (st.count + 1) + rest.length := ih _ _ h
          simp only [List.length_cons]
          omega

/-! ## Claim theorems -/

/-- Claim C1 (code_bug witness): the text round trip is not lossless.  Parsing
the minimal non-square text `,,,0 / ,,0 / 1 2` succeeds with
`_dim = [2, 1, 1, 1]` (2 values per row, 1 row per block), but `print` then
iterates its row loop over `_dim[0] = 2` while `_dim1_offsets` was allocated
with length `_dim[1] = 1`, so serialising reads the offset table out of bounds
(C++ undefined behaviour, `none` in the model) instead of reproducing the
text. -/
theorem c1_print_reads_out_of_bounds :
    (okPart (parse4D exC1)).map (fun m => (m.dim, m.data, print4D m)) =
      some ([2, 1, 1, 1], [1, 2], none) := rfl

/-- Claim C2 (code_bug witness): the explicit-dimension constructor does not
establish `len(stride_tables[i]) == dim[i]` when `dim1 ≠ dim2`:
`Matrix4D(1,2,1,1,v)` makes `compute_dim1_offsets` write `_dim[1] = 2` entries
into the size-1 `_dim1_offsets` (heap overflow, `none` in the model), and
symmetrically for `Matrix4D(2,1,1,1,v)`; only with `dim1 = dim2` (here
`Matrix4D(2,2,1,1,v)`) do all four tables get consistent lengths. -/
theorem c2_explicit_ctor_table_overflow :
    matrix4D_explicit 1 2 1 1 7 = none ∧ matrix4D_explicit 2 1 1 1 7 = none ∧
      (matrix4D_explicit 2 2 1 1 7).map
        (fun m => (m.dim1_offsets, m.dim2_offsets, m.dim3_offsets, m.dim4_offsets)) =
        some ([0, 2], [0, 1], [0], [0]) :=
  ⟨rfl, rfl, rfl⟩

/-- Claim C3 (counterexample): the seven-line example does not load to shape
(2,3,1,1).  It parses successfully to `_dim = [3, 2, 2, 1]` with 12 elements —
there are two `,,` blocks, so the third axis has size 2 — and no reading of
the claimed shape can match since its product is 6 ≠ 12. -/
theorem c3_counterexample :
    (okPart (parse4D exDoc)).map (fun m => (m.dim, m.data.length)) =
        some ([3, 2, 2, 1], 12) ∧
      [3, 2, 2, 1] ≠ ([2, 3, 1, 1] : List Nat) ∧ (12 : Nat) ≠ 2 * 3 * 1 * 1 :=
  ⟨rfl, by decide, by decide⟩

/-- Claim C3 (amended): the seven-line example loads successfully to
`_dim = [3, 2, 2, 1]` — 3 values per row, 2 rows per block, 2 blocks, 1
top-level slice — the checked `get(0,0,0,0)` returns 1, and the last flat
element is 12. -/
theorem c3_amended_shape :
    (okPart (parse4D exDoc)).map
        (fun m => (m.dim, m.data, get4D m 0 0 0 0, m.data.getLast?)) =
      some ([3, 2, 2, 1], [1, 2, 3, 4, 5, 6, 7, 8, 9, 10, 11, 12],
        Except.ok 1, some 12) := rfl

/-- Claim C4 (code_bug witness): a stream whose only line is the non-header
`abc` with no trailing newline is NOT rejected: `getline` sets `eof()`, the
`else if (not found_4d_header and not file.eof())` guard is skipped, and the
constructor silently returns a null matrix.  With a trailing newline (so that
`eof()` is still false) the same first line does raise the error. -/
theorem c4_unterminated_nonheader_accepted :
    (okPart (parse4D ⟨["abc".toList], false⟩)).map (fun m => (m.dim, m.data)) =
        some ([0, 0, 0, 0], ([] : List Int)) ∧
      parse4D ⟨["abc".toList], true⟩ = Except.error Err.readError :=
  ⟨rfl, rfl⟩

/-- Claim C5 (code_bug witness): a slice whose two blocks have 1 and 2 rows is
accepted by `get_3d_slice` although the expected row count `col_len` was fixed
to 1 by the first block: the end-of-consumption check compares `col_len_cur`
with `dim[1]` — which is itself updated to `col_len_cur` on every data row —
instead of with `col_len`, so it cannot fire for a nonempty last block.  The
final state shows `colLen = 1` yet `colLenCur = 2` and success. -/
theorem c5_last_block_rows_unchecked :
    sliceLoop [",,0".toList, "1 2".toList, ",,1".toList, "3 4".toList, "5 6".toList]
        true initSliceSt =
      Except.ok (false, ⟨[], true⟩, ⟨[1, 2, 3, 4, 5, 6], 2, 2, 2, 5, 3, 2, 1, 2⟩) := rfl

/-- Claim C6 (code_bug witness): a file whose single top-level slice contains
two blocks of 2 and 3 rows loads successfully as `_dim = [2, 3, 2, 1]` with
only 10 elements (the dimension product is 12), instead of failing with the
variable-dimensions error: the mismatch of the final block is never checked
(see C5) and the constructor only compares complete slices against each
other. -/
theorem c6_ragged_final_block_loaded :
    (okPart (parse4D ⟨[",,,0".toList, ",,0".toList, "1 2".toList, "3 4".toList,
          ",,1".toList, "5 6".toList, "7 8".toList, "9 10".toList], true⟩)).map
        (fun m => (m.dim, m.data.length)) =
      some ([2, 3, 2, 1], 10) ∧ (10 : Nat) ≠ 2 * 3 * 2 * 1 :=
  ⟨rfl, by decide⟩

/-- Claim C7: a 0-byte stream and a stream of exactly one line terminator both
parse to the null matrix (all-zero dimensions, empty data) as a success, and
`print` on any matrix with a zero axis emits nothing. -/
theorem c7_null_matrix_empty_file :
    parse4D ⟨[], false⟩ = Except.ok nullMatrix4 ∧
      parse4D ⟨[[]], true⟩ = Except.ok nullMatrix4 ∧
      ∀ m : Matrix4,
        m.dim.getD 0 0 = 0 ∨ m.dim.getD 1 0 = 0 ∨ m.dim.getD 2 0 = 0 ∨ m.dim.getD 3 0 = 0 →
        print4D m = some [] := by
  refine ⟨rfl, rfl, ?_⟩
  intro m h
  unfold print4D
  rw [if_pos h]

/-- Witness for C7: `print` of the null matrix emits nothing. -/
theorem c7_witness : print4D nullMatrix4 = some [] :=
  c7_null_matrix_empty_file.2.2 nullMatrix4 (Or.inl rfl)

/-- Claim C8 (counterexample): the header recognizers do not validate the
integer token: `,,ab` is classified as a 3D header and `,,,ab` as a 4D header,
and the bare `,,` is classified as a 3D header, while the claim's reading
(commas followed by an integer token) rejects all three. -/
theorem c8_counterexample :
    is_header_3d ",,ab".toList = true ∧ claim_header_3d ",,ab".toList = false ∧
      is_header_4d ",,,ab".toList = true ∧ claim_header_4d ",,,ab".toList = false ∧
      is_header_3d ",,".toList = true ∧ claim_header_3d ",,".toList = false :=
  ⟨rfl, rfl, rfl, rfl, rfl, rfl⟩

/-- Claim C8 (amended): `is_header_3d` returns true exactly when the line
starts with two commas and contains no comma after them, and `is_header_4d`
exactly when it starts with three commas and contains no comma after them —
the presence of an integer token is not checked. -/
theorem c8_header_shape (cs : List Char) :
    (is_header_3d cs = true ↔ ∃ rest, cs = ',' :: ',' :: rest ∧ rest.contains ',' = false) ∧
      (is_header_4d cs = true ↔
        ∃ rest, cs = ',' :: ',' :: ',' :: rest ∧ rest.contains ',' = false) :=
  ⟨is_header_3d_iff cs, is_header_4d_iff cs⟩

/-- Claim C9: the checked `Matrix2D::set(row, col, value)` only performs the
bounds check (through `get`) and never stores the value: for in-range
coordinates it succeeds and returns the matrix state completely unchanged. -/
theorem c9_checked_set_never_stores (m : Matrix2) (row col : Nat) (v : Int)
    (h1 : row < m.dim.getD 0 0) (h2 : col < m.dim.getD 1 0) :
    set2D m row col v = Except.ok m := by
  rcases m with ⟨dim, data, dp⟩
  rcases dim with _ | ⟨d0, _ | ⟨d1, tl⟩⟩
  · exact absurd h1 (Nat.not_lt_zero row)
  · exact absurd h2 (Nat.not_lt_zero col)
  · have hr : row < d0 := h1
    have hcol : col < d1 := h2
    simp [set2D, baseGet, hr, hcol]

/-- Witness for C9 at a concrete 2×2 matrix. -/
theorem c9_witness :
    set2D ⟨[2, 2], [1, 2, 3, 4], [1, 2]⟩ 0 1 9 = Except.ok ⟨[2, 2], [1, 2, 3, 4], [1, 2]⟩ :=
  c9_checked_set_never_stores ⟨[2, 2], [1, 2, 3, 4], [1, 2]⟩ 0 1 9 (by decide) (by decide)

/-- Claim C10: the `Matrix2D` text constructor only incorporates a line whose
read did not reach end-of-file: a stream whose final line is unterminated
parses exactly like the stream with that line removed (its values are
dropped), while on a fully newline-terminated stream a successful parse
records in `_dim[1]` the count of all lines — hence an unterminated final line
makes the recorded line count one less than the number of lines. -/
theorem c10_unterminated_line_dropped :
    (∀ ls : List (List Char), parse2D ⟨ls, false⟩ = parse2D ⟨ls.dropLast, true⟩) ∧
      ∀ (ls : List (List Char)) (dims : List Nat) (data : List Int),
        parse2D ⟨ls, true⟩ = Except.ok (dims, data) → dims.getD 1 0 = ls.length := by
  constructor
  · intro ls
    simp only [parse2D]
    rw [loop2_dropLast]
  · intro ls dims data h
    simp only [parse2D] at h
    rcases hl : loop2 ls true init2St with e | st
    · rw [hl] at h; cases h
    · rw [hl] at h
      simp only [Except.ok.injEq, Prod.mk.injEq] at h
      obtain ⟨h1, -⟩ := h
      subst h1
      have hc : st.count = 0 + ls.length := loop2_count ls init2St st hl
      show st.count = ls.length
      omega

/-- Witness for C10: a two-line terminated stream parses in full and records
line count 2. -/
theorem c10_witness :
    parse2D ⟨[['1'], ['2']], true⟩ = Except.ok ([1, 2], [1, 2]) ∧
      ([1, 2] : List Nat).getD 1 0 = 2 :=
  ⟨rfl, c10_unterminated_line_dropped.2 [['1'], ['2']] [1, 2] [1, 2] rfl⟩

end MatrixCpp
